import Mathlib

/-!
# String Analyser — shallow embedding and verification

A shallow embedding of the string-analysis REST service:

* `src/hng/utils.py` — the pure analyzer (`get_word_count`, `get_is_palindrome`,
  `get_unique_characters`, `get_character_frequency_map`, `get_sha256`,
  `create_properties`);
* `src/hng/routes/route.py` — the four HTTP handlers (`create_string`,
  `get_string`, `get_all_strings`, `filter_by_natural_language`), with the
  database session modelled as an explicit list of `Analyser` rows threaded
  through each handler, and `raise HTTPException` modelled as an `Except`-style
  error result.

Python strings are modelled as Lean `String`s; the Python library operations
the code uses (`str.lower`, `str.strip`, `re.findall`, `hashlib.sha256`,
UTF-8 encoding, `await`) are each given an executable Lean model next to the
code that uses them.
-/

namespace StringAnalyser

/-! ## Python string primitives -/

/-- The whitespace characters recognised by Python `str.strip()` with no
arguments, restricted to the ASCII range. -/
def pyIsSpace (c : Char) : Bool :=
  c = ' ' || c = '\t' || c = '\n' || c = '\x0b' || c = '\x0c' || c = '\r'

/-- Per-character mapping of Python `str.lower()`. ASCII letters `A`–`Z` map
into `a`–`z`. U+0130 (`İ`) is the single code point whose lowercase form has
more than one character (U+0069 followed by U+0307, per Unicode
SpecialCasing), which makes `len(s.lower())` differ from `len(s)`; the
remaining one-to-one non-ASCII mappings are not exercised by any claim and
are modelled as the identity. -/
def pyLowerChar (c : Char) : List Char :=
  if c = 'İ' then ['i', '̇']
  else if 65 ≤ c.toNat ∧ c.toNat ≤ 90 then [Char.ofNat (c.toNat + 32)]
  else [c]

/-- Python `s.lower()`. -/
def pyLower (s : String) : String := ⟨s.data.flatMap pyLowerChar⟩

/-- Python `s.strip()`: remove leading and trailing whitespace. -/
def pyStrip (s : String) : String :=
  ⟨((s.data.dropWhile pyIsSpace).reverse.dropWhile pyIsSpace).reverse⟩

/-- Python `s[::-1]`: the character-for-character reversal. -/
def pyReverse (s : String) : String := ⟨s.data.reverse⟩

/-! ## UTF-8 and SHA-256 (model of `hashlib.sha256(x.encode("utf-8")).hexdigest()`) -/

/-- UTF-8 encoding of one code point, as Python `str.encode("utf-8")` emits it. -/
def utf8EncodeChar (c : Char) : List Nat :=
  let n := c.toNat
  if n < 0x80 then [n]
  else if n < 0x800 then [0xC0 + n / 64, 0x80 + n % 64]
  else if n < 0x10000 then [0xE0 + n / 4096, 0x80 + (n / 64) % 64, 0x80 + n % 64]
  else [0xF0 + n / 262144, 0x80 + (n / 4096) % 64, 0x80 + (n / 64) % 64, 0x80 + n % 64]

/-- UTF-8 byte sequence of a string. -/
def utf8Encode (s : String) : List Nat := s.data.flatMap utf8EncodeChar

/-- Truncation to a 32-bit word. -/
def w32 (n : Nat) : Nat := n % 4294967296

/-- 32-bit right rotation (arguments below 2^32). -/
def rotr (n x : Nat) : Nat := w32 ((x >>> n) ||| (x <<< (32 - n)))

/-- The 64 SHA-256 round constants (FIPS 180-4 §4.2.2). -/
def sha256K : List Nat :=
  [1116352408, 1899447441, 3049323471, 3921009573,
   961987163, 1508970993, 2453635748, 2870763221,
   3624381080, 310598401, 607225278, 1426881987,
   1925078388, 2162078206, 2614888103, 3248222580,
   3835390401, 4022224774, 264347078, 604807628,
   770255983, 1249150122, 1555081692, 1996064986,
   2554220882, 2821834349, 2952996808, 3210313671,
   3336571891, 3584528711, 113926993, 338241895,
   666307205, 773529912, 1294757372, 1396182291,
   1695183700, 1986661051, 2177026350, 2456956037,
   2730485921, 2820302411, 3259730800, 3345764771,
   3516065817, 3600352804, 4094571909, 275423344,
   430227734, 506948616, 659060556, 883997877,
   958139571, 1322822218, 1537002063, 1747873779,
   1955562222, 2024104815, 2227730452, 2361852424,
   2428436474, 2756734187, 3204031479, 3329325298]

/-- The eight 32-bit working variables of the compression function. -/
structure Hash8 where
  a : Nat
  b : Nat
  c : Nat
  d : Nat
  e : Nat
  f : Nat
  g : Nat
  h : Nat
deriving Repr, DecidableEq

/-- SHA-256 initial hash value (FIPS 180-4 §5.3.3). -/
def sha256Init : Hash8 :=
  ⟨1779033703, 3144134277,
   1013904242, 2773480762,
   1359893119, 2600822924,
   528734635, 1541459225⟩

/-- σ₀ of the message schedule. -/
def smallSigma0 (x : Nat) : Nat := (rotr 7 x) ^^^ (rotr 18 x) ^^^ (x >>> 3)

/-- σ₁ of the message schedule. -/
def smallSigma1 (x : Nat) : Nat := (rotr 17 x) ^^^ (rotr 19 x) ^^^ (x >>> 10)

/-- Σ₀ of the round function. -/
def bigSigma0 (x : Nat) : Nat := (rotr 2 x) ^^^ (rotr 13 x) ^^^ (rotr 22 x)

/-- Σ₁ of the round function. -/
def bigSigma1 (x : Nat) : Nat := (rotr 6 x) ^^^ (rotr 11 x) ^^^ (rotr 25 x)

/-- Extend the 16 message-schedule words by the given number of words
(48 for SHA-256). -/
def sha256Extend : Nat → List Nat → List Nat
  | 0, acc => acc
  | n + 1, acc =>
    let i := acc.length
    let word := w32 (smallSigma1 (acc.getD (i - 2) 0) + acc.getD (i - 7) 0 +
      smallSigma0 (acc.getD (i - 15) 0) + acc.getD (i - 16) 0)
    sha256Extend n (acc ++ [word])

/-- One round of the SHA-256 compression function. -/
def sha256Round (st : Hash8) (kw : Nat × Nat) : Hash8 :=
  let s1 := bigSigma1 st.e
  let ch := (st.e &&& st.f) ^^^ ((st.e ^^^ 0xFFFFFFFF) &&& st.g)
  let temp1 := w32 (st.h + s1 + ch + kw.1 + kw.2)
  let s0 := bigSigma0 st.a
  let maj := (st.a &&& st.b) ^^^ (st.a &&& st.c) ^^^ (st.b &&& st.c)
  let temp2 := w32 (s0 + maj)
  ⟨w32 (temp1 + temp2), st.a, st.b, st.c, w32 (st.d + temp1), st.e, st.f, st.g⟩

/-- Big-endian 32-bit word from a list of bytes. -/
def beWord (l : List Nat) : Nat := l.foldl (fun acc b => acc * 256 + b) 0

/-- Split into the first `n` chunks of size `sz`. -/
def chunksGo (sz : Nat) : Nat → List Nat → List (List Nat)
  | 0, _ => []
  | n + 1, l => l.take sz :: chunksGo sz n (l.drop sz)

/-- Split a list whose length is a multiple of `sz` into chunks of size `sz`. -/
def chunks (sz : Nat) (l : List Nat) : List (List Nat) := chunksGo sz (l.length / sz) l

/-- The 8-byte big-endian encoding of the message bit length. -/
def beBytes8 (n : Nat) : List Nat := [56, 48, 40, 32, 24, 16, 8, 0].map (fun s => (n >>> s) &&& 255)

/-- FIPS 180-4 §5.1.1 padding: a `0x80` byte, zeros up to 56 mod 64, then the
bit length. -/
def sha256Pad (msg : List Nat) : List Nat :=
  msg ++ [0x80] ++ List.replicate ((119 - msg.length % 64) % 64) 0 ++ beBytes8 (8 * msg.length)

/-- Process one 64-byte block. -/
def sha256Block (hv : Hash8) (block : List Nat) : Hash8 :=
  let ws := sha256Extend 48 ((chunks 4 block).map beWord)
  let st := (sha256K.zip ws).foldl sha256Round hv
  ⟨w32 (hv.a + st.a), w32 (hv.b + st.b), w32 (hv.c + st.c), w32 (hv.d + st.d),
   w32 (hv.e + st.e), w32 (hv.f + st.f), w32 (hv.g + st.g), w32 (hv.h + st.h)⟩

/-- Lower-case hex digit. -/
def hexChar (n : Nat) : Char := if n < 10 then Char.ofNat (48 + n) else Char.ofNat (87 + n)

/-- The 8 hex characters of one 32-bit word. -/
def wordHex (wd : Nat) : List Char := [28, 24, 20, 16, 12, 8, 4, 0].map (fun s => hexChar ((wd >>> s) &&& 15))

/-- Hex SHA-256 digest of a byte sequence, as `hashlib.sha256(b).hexdigest()`
returns it. -/
def sha256hex (msg : List Nat) : String :=
  let hv := (chunks 64 (sha256Pad msg)).foldl sha256Block sha256Init
  ⟨[hv.a, hv.b, hv.c, hv.d, hv.e, hv.f, hv.g, hv.h].flatMap wordHex⟩

/-! ## src/hng/utils.py — the analyzer -/

/-- The `\w` class of the regex `\b\w+\b` (letters, digits, underscore). -/
def isWordChar (c : Char) : Bool := c.isAlphanum || c = '_'

/-- `get_word_count`: `len(re.findall(r"\b\w+\b", sentence.lower()))`, i.e.
the number of maximal runs of word characters in the lowercased string. -/
def get_word_count (sentence : String) : Nat :=
  ((pyLower sentence).data.foldl
    (fun st c =>
      if isWordChar c then (if st.2 then st else (st.1 + 1, true)) else (st.1, false))
    ((0, false) : Nat × Bool)).1

/-- `get_is_palindrome`: `normalized = sentence.lower()` and then
`normalized == normalized[::-1]`. (The function's own docstring claims it
also strips spaces and punctuation; the code does not.) -/
def get_is_palindrome (sentence : String) : Bool :=
  let normalized := pyLower sentence
  normalized == pyReverse normalized

/-- `get_unique_characters`: `len(set(sentence.lower()))`. -/
def get_unique_characters (sentence : String) : Nat :=
  ((pyLower sentence).data.eraseDups).length

/-- The dict update `freq[char] = freq.get(char, 0) + 1` on an
insertion-ordered association list. -/
def freqIncr : List (String × Nat) → String → List (String × Nat)
  | [], k => [(k, 1)]
  | (k', v) :: rest, k =>
    if k' = k then (k', v + 1) :: rest else (k', v) :: freqIncr rest k

/-- The body of the `get_character_frequency_map` loop: count the character
when `char.strip()` is truthy (i.e. the character is not whitespace). -/
def freqStep (freq : List (String × Nat)) (c : Char) : List (String × Nat) :=
  if pyStrip (String.singleton c) ≠ "" then freqIncr freq (String.singleton c) else freq

/-- `get_character_frequency_map`: fold the counting loop over the
lowercased string, starting from the empty dict. -/
def get_character_frequency_map (sentence : String) : List (String × Nat) :=
  (pyLower sentence).data.foldl freqStep []

/-- `get_sha256`: `hashlib.sha256(sentence.lower().encode("utf-8")).hexdigest()`. -/
def get_sha256 (sentence : String) : String := sha256hex (utf8Encode (pyLower sentence))

/-- The `PropertiesModel` schema: the dict returned by `create_properties`. -/
structure PropertiesModel where
  length : Nat
  is_palindrome : Bool
  unique_characters : Nat
  word_count : Nat
  sha256_hash : String
  character_frequency_map : List (String × Nat)
deriving Repr, DecidableEq

/-- `create_properties`: all analysis properties of its argument
(`length` is `len(sentence)` — the length of the string it is handed). -/
def create_properties (sentence : String) : PropertiesModel :=
  { length := sentence.length
    is_palindrome := get_is_palindrome sentence
    unique_characters := get_unique_characters sentence
    word_count := get_word_count sentence
    sha256_hash := get_sha256 sentence
    character_frequency_map := get_character_frequency_map sentence }

/-! ## src/hng/routes/route.py — data model -/

/-- `raise HTTPException(status_code=..., detail=...)`. -/
structure HTTPException where
  status_code : Nat
  detail : String
deriving Repr, DecidableEq

/-- Default error message (route.py line 68). -/
def DOES_NOT_EXIST : String := "value does not exist"

/-- Default error message (route.py line 69). -/
def DUPLICATE_VALUE : String := "String already exists in the system"

/-- Default error message (route.py line 70). -/
def NOT_STRING : String := "\"value\" must be a string"

/-- Default error message (route.py line 71). -/
def EMPTY_STRING : String := "\"value\" field is required"

/-- A Python value, as the dynamically typed `value: Any` field of the
`GetRequest` body schema can hold it after JSON decoding. -/
inductive PyValue where
  | str (s : String)
  | int (n : Int)
  | bool (b : Bool)
  | none
  | list (l : List PyValue)
  | dict (entries : List (String × PyValue))
deriving Repr

/-- Python truthiness `bool(v)` of a decoded JSON value: empty string, zero,
`False`, `None`, empty list and empty dict are falsy. -/
def pyTruthy : PyValue → Bool
  | .str s => !(s == "")
  | .int n => !(n == 0)
  | .bool b => b
  | .none => false
  | .list l => !l.isEmpty
  | .dict l => !l.isEmpty

/-- `isinstance(v, str)`. -/
def PyValue.isStr : PyValue → Bool
  | .str _ => true
  | _ => false

/-- One row of the `analyser` table (src/hng/model/analyser.py). -/
structure Analyser where
  id : String
  sha256_hash : String
  value : String
  length : Nat
  word_count : Nat
  is_palindrome : Bool
  unique_characters : Nat
  character_frequency_map : List (String × Nat)
  created_at : Option Nat
deriving Repr, DecidableEq

/-- The `StringResponse` schema. -/
structure StringResponse where
  id : String
  value : String
  properties : PropertiesModel
  created_at : Option Nat
deriving Repr, DecidableEq

/-- The database session state: the rows of the single `analyser` table, in
insertion order. -/
abbrev DB := List Analyser

/-! ## The handlers -/

/-- The `Analyser(...)` constructor call of route.py lines 120–130: the row
built from the stripped value, its computed properties and the request
time. -/
def rowOfProp (value : String) (prop : PropertiesModel) (now : Nat) : Analyser :=
  { id := prop.sha256_hash
    sha256_hash := prop.sha256_hash
    value := value
    length := prop.length
    word_count := prop.word_count
    is_palindrome := prop.is_palindrome
    unique_characters := prop.unique_characters
    character_frequency_map := prop.character_frequency_map
    created_at := some now }

/-- `POST /strings/` (`create_string`, route.py lines 74–140). Returns the
HTTP error raised or the `StringResponse`, together with the table state
after the request; `now` stands for `datetime.now(UTC)`. -/
def create_string (reqValue : PyValue) (db : DB) (now : Nat) :
    Except HTTPException StringResponse × DB :=
  if !pyTruthy reqValue then (.error ⟨400, EMPTY_STRING⟩, db)
  else
    match reqValue with
    | .str sv =>
      let value := pyStrip sv
      let prop := create_properties (pyLower value)
      if (db.find? (fun r => r.id == prop.sha256_hash)).isSome then
        (.error ⟨409, DUPLICATE_VALUE⟩, db)
      else if (db.find? (fun r => r.value == sv)).isSome then
        (.error ⟨409, DUPLICATE_VALUE⟩, db)
      else
        let row := rowOfProp value prop now
        (.ok { id := row.id, value := row.value, properties := prop, created_at := some now },
         db ++ [row])
    | _ => (.error ⟨422, NOT_STRING⟩, db)

/-- The `StringResponse` built from a stored row (route.py lines 177–182 and
256–264: `PropertiesModel(**r.__dict__)` plus id, value and created_at). -/
def responseOfRow (r : Analyser) : StringResponse :=
  { id := r.id, value := r.value,
    properties := { length := r.length, is_palindrome := r.is_palindrome,
                    unique_characters := r.unique_characters, word_count := r.word_count,
                    sha256_hash := r.sha256_hash,
                    character_frequency_map := r.character_frequency_map },
    created_at := r.created_at }

/-- `GET /strings/{string_value}` (`get_string`, route.py lines 143–182):
strip the path segment, hash its lowercased form, and look the row up by
primary key. -/
def get_string (string_value : String) (db : DB) : Except HTTPException StringResponse :=
  let value := pyStrip string_value
  let rowId := get_sha256 (pyLower value)
  match db.find? (fun r => r.id == rowId) with
  | Option.none => .error ⟨404, DOES_NOT_EXIST⟩
  | Option.some r => .ok (responseOfRow r)

/-- The optional query parameters of `GET /strings/`. -/
structure FilterParams where
  is_palindrome : Option Bool
  min_length : Option Int
  max_length : Option Int
  word_count : Option Int
  contains_character : Option String
deriving Repr, DecidableEq

/-- A value recorded in the `filters_applied` dict. -/
inductive FilterVal where
  | b (x : Bool)
  | i (x : Int)
  | s (x : String)
deriving Repr, DecidableEq

/-- Python truthiness of `max_length and min_length and max_length < min_length`
(route.py line 221): `None` and `0` are both falsy, so the bound check fires
only when both bounds are present and non-zero. -/
def badBounds (f : FilterParams) : Bool :=
  match f.max_length, f.min_length with
  | some ma, some mi => !(ma == 0) && !(mi == 0) && decide (ma < mi)
  | _, _ => false

/-- The `condition` list built by `get_all_strings` (route.py lines 229–244),
as predicates on rows. `min_length`/`max_length` conditions are appended
whenever the parameter `is not None`; the `contains_character` condition is
appended only when the parameter is truthy (present and non-empty), and
matches rows whose frequency map has the stripped, lowercased character as a
key. -/
def conditionsOf (f : FilterParams) : List (Analyser → Bool) :=
  (match f.is_palindrome with
   | some p => [fun r => r.is_palindrome == p]
   | none => []) ++
  (match f.min_length with
   | some mi => [fun r => decide (mi ≤ (r.length : Int))]
   | none => []) ++
  (match f.max_length with
   | some ma => [fun r => decide ((r.length : Int) ≤ ma)]
   | none => []) ++
  (match f.word_count with
   | some wc => [fun r => (r.word_count : Int) == wc]
   | none => []) ++
  (match f.contains_character with
   | some cc =>
    if cc == "" then []
    else [fun r => r.character_frequency_map.any (fun kv => kv.1 == pyLower (pyStrip cc))]
   | none => [])

/-- The `params` dict built alongside `condition` (route.py lines 229–244). -/
def paramsOf (f : FilterParams) : List (String × FilterVal) :=
  (match f.is_palindrome with | some p => [("is_palindrome", .b p)] | none => []) ++
  (match f.min_length with | some mi => [("min_length", .i mi)] | none => []) ++
  (match f.max_length with | some ma => [("max_length", .i ma)] | none => []) ++
  (match f.word_count with | some wc => [("word_count", .i wc)] | none => []) ++
  (match f.contains_character with
   | some cc => if cc == "" then [] else [("contains_character", .s cc)]
   | none => [])

/-- The `ListResponse` schema. -/
structure ListResponse where
  data : List StringResponse
  count : Nat
  filters_applied : List (String × FilterVal)
deriving Repr, DecidableEq

/-- `GET /strings/` (`get_all_strings`, route.py lines 185–266): reject
inconsistent truthy bounds with 422; 404 when the `condition` list is empty;
filter by the conjunction of the conditions; 404 when no row matches. -/
def get_all_strings (f : FilterParams) (db : DB) : Except HTTPException ListResponse :=
  if badBounds f then
    .error ⟨422, "Max length must be greater than Min length"⟩
  else
    let condition := conditionsOf f
    if condition.isEmpty then .error ⟨404, DOES_NOT_EXIST⟩
    else
      let result := db.filter (fun r => condition.all (fun c => c r))
      if result.isEmpty then .error ⟨404, DOES_NOT_EXIST⟩
      else
        .ok { data := result.map responseOfRow, count := result.length,
              filters_applied := paramsOf f }

/-! ## The natural-language filter handler -/

/-- A parsed JSON value, as `response.json()` produces it. -/
inductive Json where
  | obj (fields : List (String × Json))
  | arr (elems : List Json)
  | str (s : String)
  | num (n : Int)
  | bool (b : Bool)
  | null
deriving Repr

/-- Python truthiness of a parsed JSON body (`if not parsed_filters`). -/
def jsonTruthy : Json → Bool
  | .obj l => !l.isEmpty
  | .arr l => !l.isEmpty
  | .str s => !(s == "")
  | .num n => !(n == 0)
  | .bool b => b
  | .null => false

/-- CPython `await x`: `x` must be an awaitable (a coroutine, a task, or an
object with `__await__`). No value `response.json()` can produce — dict,
list, str, number, bool, `None` — is awaitable, so evaluating
`await parsed_filters` raises `TypeError` for every parsed body. -/
def pyAwait (_v : Json) : Except String Json :=
  .error "TypeError: object can't be used in 'await' expression"

/-- The outcome of the upstream `client.get(NLP_API_URL, ...)` call together
with body parsing: a transport failure (`httpx.RequestError`), a non-success
status (`response.raise_for_status()` raising `httpx.HTTPStatusError` with
the response text), or a success whose body either fails to parse as JSON
(`json.JSONDecodeError`) or parses to a `Json` value. -/
inductive UpstreamResult where
  | requestError (msg : String)
  | httpStatusError (text : String)
  | success (body : Except String Json)
deriving Repr

/-- What the natural-language handler produces: an `HTTPException` it raised,
the value of a `return`, or an uncaught Python exception (surfaced by the
framework as a 500 Internal Server Error). -/
inductive NLPResult where
  | http (e : HTTPException)
  | ok (v : Json)
  | pythonError (msg : String)
deriving Repr

/-- `GET /strings/filter-by-natural-language` (`filter_by_natural_language`,
route.py lines 269–378). The second component records whether the repository
was queried (whether a `session.execute` call was reached). The
filter-application block at lines 324–378 sits after the
`return await parsed_filters` statement on line 322; as in the source, no
branch of the embedding reaches it, so no branch performs a repository
query. -/
def filter_by_natural_language (upstream : UpstreamResult) (_db : DB) : NLPResult × Bool :=
  match upstream with
  | .requestError msg => (.http ⟨502, "Failed to reach NLP API: " ++ msg⟩, false)
  | .httpStatusError text => (.http ⟨500, "NLP API returned error: " ++ text⟩, false)
  | .success body =>
    match body with
    | .error _ => (.http ⟨502, "Invalid JSON returned from NLP API"⟩, false)
    | .ok parsed_filters =>
      if !jsonTruthy parsed_filters then
        (.http ⟨400, "Unable to parse natural language query"⟩, false)
      else
        match pyAwait parsed_filters with
        | .error msg => (.pythonError msg, false)
        | .ok v => (.ok v, false)

/-! ## Reachable table states -/

/-- The table states reachable through the exposed API, starting from an
empty table. `create_string` is the only handler that writes to the session
(`session.add`/`session.commit`); `get_string`, `get_all_strings` and
`filter_by_natural_language` only read, which their embeddings reflect by
returning no table state. -/
inductive Reachable : DB → Prop where
  | nil : Reachable []
  | create (db : DB) (v : PyValue) (now : Nat) (h : Reachable db) :
      Reachable (create_string v db now).2

/-- The spec's definition of the stored hash, in its own words: the
hex-encoded SHA-256 digest of the UTF-8 bytes of the folded (lowercased)
string. -/
def sha256_of_lower (s : String) : String := sha256hex (utf8Encode (pyLower s))

/-- Decidable equality of handler results (not provided by this toolchain's
core library). -/
instance {ε α : Type} [DecidableEq ε] [DecidableEq α] : DecidableEq (Except ε α) := fun x y =>
  match x, y with
  | .error a, .error b =>
    if h : a = b then .isTrue (congrArg Except.error h)
    else .isFalse (fun he => h (Except.error.inj he))
  | .ok a, .ok b =>
    if h : a = b then .isTrue (congrArg Except.ok h)
    else .isFalse (fun he => h (Except.ok.inj he))
  | .error _, .ok _ => .isFalse Except.noConfusion
  | .ok _, .error _ => .isFalse Except.noConfusion

/-! ## Helper lemmas -/

/-- `Char.ofNat` of a valid scalar value has that value as its code point. -/
theorem toNat_ofNat_valid (n : Nat) (h : n.isValidChar) : (Char.ofNat n).toNat = n := by
  simp only [Char.ofNat, dif_pos h, Char.ofNatAux, Char.toNat, UInt32.toNat,
    BitVec.toNat_ofNatLt]

/-- Every character emitted by the lowercase mapping is a fixed point of it. -/
theorem pyLowerChar_fixed (c₀ : Char) : ∀ c ∈ pyLowerChar c₀, pyLowerChar c = [c] := by
  intro c hc
  unfold pyLowerChar at hc
  by_cases h1 : c₀ = 'İ'
  · rw [if_pos h1] at hc
    simp only [List.mem_cons, List.mem_singleton, List.not_mem_nil, or_false] at hc
    rcases hc with rfl | rfl
    · decide
    · decide
  · rw [if_neg h1] at hc
    by_cases h2 : 65 ≤ c₀.toNat ∧ c₀.toNat ≤ 90
    · rw [if_pos h2] at hc
      simp only [List.mem_singleton] at hc
      subst hc
      have hv : (c₀.toNat + 32).isValidChar := Or.inl (by omega)
      have ht : (Char.ofNat (c₀.toNat + 32)).toNat = c₀.toNat + 32 :=
        toNat_ofNat_valid _ hv
      unfold pyLowerChar
      rw [if_neg, if_neg]
      · rw [ht]; omega
      · intro h
        have hconv := congrArg Char.toNat h
        rw [ht] at hconv
        have hdot : Char.toNat 'İ' = 304 := by decide
        omega
    · rw [if_neg h2] at hc
      simp only [List.mem_singleton] at hc
      subst hc
      unfold pyLowerChar
      rw [if_neg h1, if_neg h2]

/-- Mapping the lowercase expansion over a list of its own outputs is the
identity. -/
theorem flatMap_pyLowerChar_fixed (m : List Char) (hm : ∀ c ∈ m, pyLowerChar c = [c]) :
    m.flatMap pyLowerChar = m := by
  induction m with
  | nil => simp
  | cons c cs ih =>
    rw [List.flatMap_cons, hm c (by simp), ih (fun d hd => hm d (by simp [hd]))]
    rfl

/-- Python `str.lower` is idempotent. -/
theorem pyLower_idem (s : String) : pyLower (pyLower s) = pyLower s := by
  unfold pyLower
  congr 1
  show (s.data.flatMap pyLowerChar).flatMap pyLowerChar = s.data.flatMap pyLowerChar
  induction s.data with
  | nil => simp
  | cons c cs ih =>
    rw [List.flatMap_cons, List.flatMap_append, ih,
      flatMap_pyLowerChar_fixed _ (pyLowerChar_fixed c)]

/-- Hashing an already-lowercased string gives the same digest. -/
theorem get_sha256_pyLower (s : String) : get_sha256 (pyLower s) = get_sha256 s := by
  unfold get_sha256
  rw [pyLower_idem]

/-- Keys of `freqIncr m k` are `k` or keys already in `m`. -/
theorem freqIncr_key (m : List (String × Nat)) (k : String) :
    ∀ kv ∈ freqIncr m k, kv.1 = k ∨ ∃ n, (kv.1, n) ∈ m := by
  induction m with
  | nil =>
    intro kv hkv
    simp only [freqIncr, List.mem_singleton] at hkv
    subst hkv
    exact Or.inl rfl
  | cons hd tl ih =>
    obtain ⟨k', vn⟩ := hd
    intro kv hkv
    simp only [freqIncr] at hkv
    by_cases hk : k' = k
    · rw [if_pos hk] at hkv
      rcases List.mem_cons.mp hkv with rfl | htl
      · exact Or.inl hk
      · exact Or.inr ⟨kv.2, List.mem_cons_of_mem _ htl⟩
    · rw [if_neg hk] at hkv
      rcases List.mem_cons.mp hkv with rfl | htl
      · exact Or.inr ⟨vn, List.mem_cons_self _ _⟩
      · rcases ih kv htl with h | ⟨n, hn⟩
        · exact Or.inl h
        · exact Or.inr ⟨n, List.mem_cons_of_mem _ hn⟩

/-- The counting loop never inserts a key whose `strip()` is empty. -/
theorem foldl_freqStep_keys (l : List Char) (acc : List (String × Nat))
    (hacc : ∀ kv ∈ acc, pyStrip kv.1 ≠ "") :
    ∀ kv ∈ l.foldl freqStep acc, pyStrip kv.1 ≠ "" := by
  induction l generalizing acc with
  | nil => exact hacc
  | cons c cs ih =>
    refine ih (freqStep acc c) ?_
    intro kv hkv
    unfold freqStep at hkv
    by_cases hc : pyStrip (String.singleton c) ≠ ""
    · rw [if_pos hc] at hkv
      rcases freqIncr_key acc (String.singleton c) kv hkv with h | ⟨n, hn⟩
      · rw [h]; exact hc
      · exact hacc (kv.1, n) hn
    · rw [if_neg hc] at hkv
      exact hacc kv hkv

/-- No key of a computed frequency map is whitespace-only. -/
theorem char_freq_keys (s : String) :
    ∀ kv ∈ get_character_frequency_map s, pyStrip kv.1 ≠ "" := by
  unfold get_character_frequency_map
  exact foldl_freqStep_keys _ [] (by intro kv h; cases h)

/-- Case analysis of `create_string`: every failing request returns an error
and leaves the table unchanged; a succeeding request passed a truthy string,
found no row with the computed hash, and appends exactly the row of
route.py lines 120–130, returning its data. -/
theorem create_string_spec (v : PyValue) (db : DB) (now : Nat) :
    (∃ e, create_string v db now = (.error e, db))
    ∨ (∃ sv, v = PyValue.str sv ∧ pyTruthy v = true ∧
        db.find? (fun r => r.id ==
          (create_properties (pyLower (pyStrip sv))).sha256_hash) = Option.none ∧
        create_string v db now =
          (.ok { id := (create_properties (pyLower (pyStrip sv))).sha256_hash,
                 value := pyStrip sv,
                 properties := create_properties (pyLower (pyStrip sv)),
                 created_at := some now },
           db ++ [rowOfProp (pyStrip sv) (create_properties (pyLower (pyStrip sv))) now])) := by
  by_cases ht : pyTruthy v = true
  · cases v with
    | str sv =>
      by_cases h1 : (db.find? (fun r => r.id ==
          (create_properties (pyLower (pyStrip sv))).sha256_hash)).isSome = true
      · exact Or.inl ⟨⟨409, DUPLICATE_VALUE⟩, by simp [create_string, ht, h1]⟩
      · by_cases h2 : (db.find? (fun r => r.value == sv)).isSome = true
        · exact Or.inl ⟨⟨409, DUPLICATE_VALUE⟩, by simp [create_string, ht, h1, h2]⟩
        · refine Or.inr ⟨sv, rfl, ht, Option.not_isSome_iff_eq_none.mp h1, ?_⟩
          simp [create_string, ht, h1, h2, rowOfProp]
    | int n => exact Or.inl ⟨⟨422, NOT_STRING⟩, by simp [create_string, ht]⟩
    | bool b => exact Or.inl ⟨⟨422, NOT_STRING⟩, by simp [create_string, ht]⟩
    | none => exact Or.inl ⟨⟨422, NOT_STRING⟩, by simp [create_string, ht]⟩
    | list l => exact Or.inl ⟨⟨422, NOT_STRING⟩, by simp [create_string, ht]⟩
    | dict l => exact Or.inl ⟨⟨422, NOT_STRING⟩, by simp [create_string, ht]⟩
  · have ht' : pyTruthy v = false := eq_false_of_ne_true ht
    exact Or.inl ⟨⟨400, EMPTY_STRING⟩, by simp [create_string, ht']⟩

/-- `create_string` never removes or modifies existing rows: the prior table
is a prefix of the resulting table. -/
theorem create_string_only_appends (v : PyValue) (db : DB) (now : Nat) :
    db <+: (create_string v db now).2 := by
  rcases create_string_spec v db now with ⟨e, he⟩ | ⟨sv, _, _, _, heq⟩
  · rw [he]
  · rw [heq]
    exact ⟨[rowOfProp (pyStrip sv) (create_properties (pyLower (pyStrip sv))) now], rfl⟩

/-- The row appended by a successful create satisfies the record invariants. -/
theorem rowOfProp_inv (value : String) (now : Nat) :
    (rowOfProp value (create_properties (pyLower value)) now).id
      = (rowOfProp value (create_properties (pyLower value)) now).sha256_hash
    ∧ (rowOfProp value (create_properties (pyLower value)) now).sha256_hash
      = sha256hex (utf8Encode
          (pyLower (rowOfProp value (create_properties (pyLower value)) now).value))
    ∧ ∀ kv ∈ (rowOfProp value (create_properties (pyLower value)) now).character_frequency_map,
        pyStrip kv.1 ≠ "" := by
  refine ⟨rfl, ?_, ?_⟩
  · show get_sha256 (pyLower value) = sha256hex (utf8Encode (pyLower value))
    unfold get_sha256
    rw [pyLower_idem]
  · show ∀ kv ∈ get_character_frequency_map (pyLower value), pyStrip kv.1 ≠ ""
    exact char_freq_keys _

/-! ## Claims -/

/-- C3: for every input string, the `length` property computed by the
analyzer (`create_properties` applied, as `create_string` does on line 109,
to the lowercased value) equals the number of characters of the folded
(lowercased) string. The second conjunct shows this is not the number of
characters of the original-case string: folding `"İ"` yields two characters
while the original has one. -/
theorem C3_length_of_folded_string :
    (∀ s : String, (create_properties (pyLower s)).length = (pyLower s).length)
    ∧ (create_properties (pyLower "İ")).length ≠ ("İ" : String).length := by
  refine ⟨fun s => rfl, ?_⟩
  decide

/-- C4: `is_palindrome` is true exactly when the lowercased form of the input
equals its own character-for-character reverse; nothing is stripped beyond
case-folding, so a sentence that is a palindrome only after removing spaces
or punctuation does not count as one. -/
theorem C4_palindrome_exact_reverse :
    (∀ s : String, get_is_palindrome s = true ↔ pyLower s = pyReverse (pyLower s))
    ∧ get_is_palindrome "Madam" = true
    ∧ get_is_palindrome "never odd or even" = false := by
  refine ⟨fun s => ?_, by decide, by decide⟩
  simp [get_is_palindrome]

/-- C5: the analyzer's `sha256_hash` equals the hex-encoded SHA-256 digest of
the UTF-8 bytes of the lowercased input (`sha256_of_lower`, the spec's
formula); since `create_string` hands the analyzer the already-lowercased
value, this needs idempotence of `str.lower`. The second conjunct states
stability across repeated calls, which is immediate because the embedded
analyzer, like the code (which reads no external state), is a pure
function. -/
theorem C5_sha256_of_lowered_input :
    (∀ s : String, (create_properties (pyLower s)).sha256_hash = sha256_of_lower s)
    ∧ (∀ s : String,
        (create_properties (pyLower s)).sha256_hash
          = (create_properties (pyLower s)).sha256_hash) := by
  refine ⟨fun s => ?_, fun s => rfl⟩
  show get_sha256 (pyLower s) = sha256_of_lower s
  unfold get_sha256 sha256_of_lower
  rw [pyLower_idem]

/-- C1, counterexample: with `min_length=1` and `max_length=0` both supplied
and `max_length < min_length`, the request is NOT rejected with 422 — the
truthiness test on line 221 treats the 0 bound as absent, so filtering
proceeds and the empty result yields 404. -/
theorem C1_cex_zero_bound_not_422 :
    get_all_strings ⟨Option.none, some 1, some 0, Option.none, Option.none⟩ [] =
      .error ⟨404, DOES_NOT_EXIST⟩ ∧
    get_all_strings ⟨Option.none, some 1, some 0, Option.none, Option.none⟩ [] ≠
      .error ⟨422, "Max length must be greater than Min length"⟩ := by
  exact ⟨by decide, by decide⟩

/-- C1, amended: whenever both bounds are supplied, both are non-zero (truthy)
and `max_length < min_length`, the request is rejected with 422 before any
filtering is attempted (the result does not depend on the table contents). -/
theorem C1_amended_bad_bounds_422 (pal : Option Bool) (wc : Option Int) (cc : Option String)
    (mi ma : Int) (db : DB) (h1 : mi ≠ 0) (h2 : ma ≠ 0) (h3 : ma < mi) :
    get_all_strings ⟨pal, some mi, some ma, wc, cc⟩ db =
      .error ⟨422, "Max length must be greater than Min length"⟩ := by
  simp [get_all_strings, badBounds, h1, h2, h3]

/-- C1 witness: the spec's own example `min_length=10, max_length=5` is
rejected with 422. -/
theorem C1_amended_bad_bounds_422_witness :
    get_all_strings ⟨Option.none, some 10, some 5, Option.none, Option.none⟩ [] =
      .error ⟨422, "Max length must be greater than Min length"⟩ :=
  C1_amended_bad_bounds_422 Option.none Option.none Option.none 10 5 []
    (by decide) (by decide) (by decide)

/-- C2, counterexample: when the upstream call succeeds with the non-empty
parsed body `{"min_length": 11}`, the handler does not return that filter
object to the caller. -/
theorem C2_cex_filter_object_not_returned :
    (filter_by_natural_language (.success (.ok (.obj [("min_length", .num 11)]))) []).1 ≠
      NLPResult.ok (.obj [("min_length", .num 11)]) := by
  show NLPResult.pythonError "TypeError: object can't be used in 'await' expression" ≠
    NLPResult.ok (.obj [("min_length", .num 11)])
  intro h
  exact NLPResult.noConfusion h

/-- C2, amended: on upstream success with a non-empty parsed body the handler
evaluates `return await parsed_filters`; awaiting the non-awaitable parsed
value raises `TypeError` (an uncaught exception, surfaced as a 500), so the
parsed filter object is never returned — and the repository is never queried
(the filter-application code after the `return` on line 322 is
unreachable). -/
theorem C2_amended_nlp_success_raises_typeerror (parsed : Json) (db : DB)
    (h : jsonTruthy parsed = true) :
    filter_by_natural_language (.success (.ok parsed)) db =
      (.pythonError "TypeError: object can't be used in 'await' expression", false) := by
  simp [filter_by_natural_language, pyAwait, h]

/-- C2 witness: the amended behavior at the concrete parsed body
`{"min_length": 11}`. -/
theorem C2_amended_nlp_success_raises_typeerror_witness :
    filter_by_natural_language (.success (.ok (.obj [("min_length", .num 11)]))) [] =
      (.pythonError "TypeError: object can't be used in 'await' expression", false) :=
  C2_amended_nlp_success_raises_typeerror (.obj [("min_length", .num 11)]) [] (by decide)

/-- C10: a falsy, non-string request value (0, false, null, `[]`, `{}`) is
rejected with 400 (empty value) and not with 422 (non-string value): the
emptiness check on line 103 runs before the type check on line 105. -/
theorem C10_falsy_before_type_check (v : PyValue) (db : DB) (now : Nat)
    (hfalsy : pyTruthy v = false) (hnotstr : v.isStr = false) :
    (create_string v db now).1 = .error ⟨400, EMPTY_STRING⟩ ∧
    (create_string v db now).1 ≠ .error ⟨422, NOT_STRING⟩ := by
  unfold create_string
  rw [hfalsy]
  refine ⟨rfl, fun h => ?_⟩
  have h400 : HTTPException.mk 400 EMPTY_STRING = HTTPException.mk 422 NOT_STRING :=
    Except.error.inj h
  exact absurd (congrArg HTTPException.status_code h400) (by decide)

/-- C10 witness: the concrete falsy non-string value `0`. -/
theorem C10_falsy_before_type_check_witness :
    (create_string (PyValue.int 0) [] 0).1 = .error ⟨400, EMPTY_STRING⟩ ∧
    (create_string (PyValue.int 0) [] 0).1 ≠ .error ⟨422, NOT_STRING⟩ :=
  C10_falsy_before_type_check (PyValue.int 0) [] 0 (by decide) (by decide)

/-- C6: `GET /strings/` fails with 404 (`NotFound`) exactly when, the bound
validation passing, either no filter condition was built (the predicate set
is empty) or the supplied filters match zero rows; and a successful response
never carries an empty list. -/
theorem C6_list_404_exactly_two_cases (f : FilterParams) (db : DB) :
    (get_all_strings f db = .error ⟨404, DOES_NOT_EXIST⟩ ↔
      (badBounds f = false ∧
        ((conditionsOf f).isEmpty = true ∨
         (db.filter (fun r => (conditionsOf f).all (fun c => c r))).isEmpty = true)))
    ∧ (∀ resp, get_all_strings f db = .ok resp → resp.data ≠ []) := by
  by_cases hb : badBounds f = true
  · constructor
    · simp [get_all_strings, hb]
    · intro resp hresp
      simp [get_all_strings, hb] at hresp
  · have hb' : badBounds f = false := eq_false_of_ne_true hb
    by_cases hc : (conditionsOf f).isEmpty = true
    · constructor
      · simp [get_all_strings, hb', hc]
      · intro resp hresp
        simp [get_all_strings, hb', hc] at hresp
    · have hc' : (conditionsOf f).isEmpty = false := eq_false_of_ne_true hc
      by_cases hr : (db.filter (fun r => (conditionsOf f).all (fun c => c r))).isEmpty = true
      · constructor
        · simp [get_all_strings, hb', hc', hr]
        · intro resp hresp
          simp [get_all_strings, hb', hc', hr] at hresp
      · have hr' := eq_false_of_ne_true hr
        constructor
        · simp [get_all_strings, hb', hc', hr']
        · intro resp hresp
          simp [get_all_strings, hb', hc', hr'] at hresp
          rw [← hresp]
          simp only [ne_eq, List.map_eq_nil_iff]
          intro hnil
          rw [hnil] at hr'
          simp at hr'

/-- C6 witness: a one-row table filtered by `is_palindrome=true` succeeds and
the returned list is non-empty. -/
theorem C6_list_404_exactly_two_cases_witness :
    ({ data := [responseOfRow ⟨"i", "h", "aa", 2, 1, true, 1, [("a", 2)], some 0⟩],
       count := 1, filters_applied := [("is_palindrome", .b true)] } : ListResponse).data ≠ [] :=
  (C6_list_404_exactly_two_cases
      ⟨some true, Option.none, Option.none, Option.none, Option.none⟩
      [⟨"i", "h", "aa", 2, 1, true, 1, [("a", 2)], some 0⟩]).2
    _ (by decide)

/-- C7: `POST /strings/` is atomic — every request either fails with an
error and leaves the table exactly as it was, or succeeds, appends exactly
one new row with `created_at` populated, and returns that row's id, value
and properties with the same `created_at`. -/
theorem C7_create_atomic (v : PyValue) (db : DB) (now : Nat) :
    ((create_string v db now).2 = db ∧ ∃ e, (create_string v db now).1 = .error e)
    ∨ (∃ resp row, create_string v db now = (.ok resp, db ++ [row])
        ∧ row.created_at = some now ∧ resp.created_at = some now
        ∧ resp.id = row.id ∧ resp.value = row.value
        ∧ resp.properties = { length := row.length,
                              is_palindrome := row.is_palindrome,
                              unique_characters := row.unique_characters,
                              word_count := row.word_count,
                              sha256_hash := row.sha256_hash,
                              character_frequency_map := row.character_frequency_map }) := by
  rcases create_string_spec v db now with ⟨e, he⟩ | ⟨sv, hv, ht, hfind, heq⟩
  · left
    rw [he]
    exact ⟨rfl, e, rfl⟩
  · right
    exact ⟨_, _, heq, rfl, rfl, rfl, rfl, rfl⟩

/-- C9: on every table reachable through the exposed API, each persisted row
has `id = sha256_hash`, both equal to the SHA-256 hex digest of the
lowercased stored value, and no whitespace-only key in its frequency map;
and no operation modifies or deletes an existing row (`create_string` only
appends, and the other handlers do not write). -/
theorem C9_persisted_invariants (db : DB) (hdb : Reachable db) :
    (∀ r ∈ db, r.id = r.sha256_hash
      ∧ r.sha256_hash = sha256hex (utf8Encode (pyLower r.value))
      ∧ ∀ kv ∈ r.character_frequency_map, pyStrip kv.1 ≠ "")
    ∧ (∀ v now, db <+: (create_string v db now).2) := by
  induction hdb with
  | nil =>
    refine ⟨?_, fun v now => create_string_only_appends v [] now⟩
    intro r hr
    cases hr
  | create db v now hr ih =>
    refine ⟨?_, fun v2 now2 => create_string_only_appends v2 _ now2⟩
    rcases create_string_spec v db now with ⟨e, he⟩ | ⟨sv, hv, ht, hfind, heq⟩
    · rw [he]
      exact ih.1
    · rw [heq]
      intro r hrmem
      rcases List.mem_append.mp hrmem with hmem | hmem
      · exact ih.1 r hmem
      · simp only [List.mem_singleton] at hmem
        subst hmem
        exact rowOfProp_inv (pyStrip sv) now

/-- C9 witness: the invariant theorem applied at the reachable empty table:
any create from it can only extend it. -/
theorem C9_persisted_invariants_witness :
    ([] : DB) <+: (create_string (PyValue.str "a") [] 5).2 :=
  (C9_persisted_invariants [] Reachable.nil).2 (PyValue.str "a") 5

/-- `get_string` rewritten without its `let` bindings. -/
theorem get_string_eq_find (sv : String) (db : DB) :
    get_string sv db =
      match db.find? (fun r => r.id == get_sha256 (pyLower (pyStrip sv))) with
      | Option.none => .error ⟨404, DOES_NOT_EXIST⟩
      | Option.some r => .ok (responseOfRow r) := rfl

/-- C8: round-trip — whenever `POST /strings/` succeeds for a value, a
subsequent `GET /strings/{value}` on the resulting table succeeds and
returns the very response of the creation (in particular the same length,
is_palindrome, unique_characters, word_count, sha256_hash and
character_frequency_map). -/
theorem C8_roundtrip (v : String) (db : DB) (now : Nat) (resp : StringResponse) (db2 : DB)
    (h : create_string (.str v) db now = (.ok resp, db2)) :
    get_string v db2 = .ok resp := by
  rcases create_string_spec (.str v) db now with ⟨e, he⟩ | ⟨sv, hv, ht, hfind, heq⟩
  · rw [he] at h
    exact absurd (congrArg Prod.fst h) (by simp)
  · injection hv with hsv
    subst hsv
    rw [heq] at h
    have h1 : Except.ok (ε := HTTPException)
        ({ id := (create_properties (pyLower (pyStrip v))).sha256_hash,
           value := pyStrip v,
           properties := create_properties (pyLower (pyStrip v)),
           created_at := some now } : StringResponse) = .ok resp := congrArg Prod.fst h
    have h2 : db ++ [rowOfProp (pyStrip v) (create_properties (pyLower (pyStrip v))) now] = db2 :=
      congrArg Prod.snd h
    have hresp := Except.ok.inj h1
    subst h2
    rw [← hresp]
    rw [get_string_eq_find]
    have hfind' : db.find? (fun r => r.id == get_sha256 (pyLower (pyStrip v))) = Option.none :=
      hfind
    rw [List.find?_append, hfind', Option.none_or]
    have hfl : List.find? (fun r => r.id == get_sha256 (pyLower (pyStrip v)))
          [rowOfProp (pyStrip v) (create_properties (pyLower (pyStrip v))) now]
        = some (rowOfProp (pyStrip v) (create_properties (pyLower (pyStrip v))) now) :=
      List.find?_cons_of_pos _ (beq_self_eq_true _)
    rw [hfl]
    rfl

set_option maxRecDepth 100000 in
/-- C8 witness: creating `"abc"` in the empty table and immediately reading
it back returns the creation response itself. -/
theorem C8_roundtrip_witness :
    get_string "abc"
      [⟨"ba7816bf8f01cfea414140de5dae2223b00361a396177a9cb410ff61f20015ad",
        "ba7816bf8f01cfea414140de5dae2223b00361a396177a9cb410ff61f20015ad", "abc",
        3, 1, false, 3, [("a", 1), ("b", 1), ("c", 1)], some 0⟩] =
      .ok ⟨"ba7816bf8f01cfea414140de5dae2223b00361a396177a9cb410ff61f20015ad", "abc",
           ⟨3, false, 3, 1, "ba7816bf8f01cfea414140de5dae2223b00361a396177a9cb410ff61f20015ad",
            [("a", 1), ("b", 1), ("c", 1)]⟩, some 0⟩ :=
  C8_roundtrip "abc" [] 0
    ⟨"ba7816bf8f01cfea414140de5dae2223b00361a396177a9cb410ff61f20015ad", "abc",
     ⟨3, false, 3, 1, "ba7816bf8f01cfea414140de5dae2223b00361a396177a9cb410ff61f20015ad",
      [("a", 1), ("b", 1), ("c", 1)]⟩, some 0⟩
    [⟨"ba7816bf8f01cfea414140de5dae2223b00361a396177a9cb410ff61f20015ad",
      "ba7816bf8f01cfea414140de5dae2223b00361a396177a9cb410ff61f20015ad", "abc",
      3, 1, false, 3, [("a", 1), ("b", 1), ("c", 1)], some 0⟩]
    (by decide)

end StringAnalyser
